import Mathlib

/-!
Shallow embedding of the ping session bridge from src/src/ping.rs.

The bridge starts an engine ping session, lets the engine deliver
success / timeout / end events through three callbacks that mutate a
per-run Tracker, blocks until the end callback clears the running flag,
then tears the session down and returns the final Summary.

Modelling choices:
* Durations are modelled as natural numbers of milliseconds, matching the
  millisecond granularity at which the source reads and writes them.
* The external engine is modelled by an Engine record: the outcome of each
  engine call (create / start / stop / delete), the finite list of events
  it delivers, and the per-event profile snapshot that
  esp_ping_get_profile would return inside the corresponding handler.
* The user observer (a Rust FnMut closure) is modelled as Option Unit in
  the Tracker together with an explicit trace of its invocations: a
  side-effect-free observer cannot influence the Tracker, so its whole
  semantics is the list of (Summary, Reply) arguments it receives.
* Event delivery is sequenced before the wait completes, reflecting the
  engine contract that the end event fires once, after all reply events,
  and that callbacks never run concurrently with each other.
-/

namespace PingBridge

/-- User-facing ping configuration (src/src/ping.rs, struct Configuration);
interval and timeout are in milliseconds. -/
structure Configuration where
  count : Nat
  interval_ms : Nat
  timeout_ms : Nat
  data_size : Nat
  tos : Nat
deriving DecidableEq

/-- Default configuration: 5 packets, 1 s interval, 1 s timeout, 56-byte
payload, tos 0 (impl Default for Configuration). -/
def Configuration.default : Configuration :=
  { count := 5, interval_ms := 1000, timeout_ms := 1000, data_size := 56, tos := 0 }

/-- Per-reply success record (struct Info); the address is the raw
IPv4 value, elapsed time in milliseconds. -/
structure Info where
  addr : Nat
  seqno : Nat
  ttl : Nat
  elapsed_time_ms : Nat
  recv_len : Nat
deriving DecidableEq

/-- One engine event translated to user-visible form (enum Reply). -/
inductive Reply
  | Timeout
  | Success (info : Info)
deriving DecidableEq

/-- Running / final statistics (struct Summary); time in milliseconds. -/
structure Summary where
  transmitted : Nat
  received : Nat
  time_ms : Nat
deriving DecidableEq

/-- Summary default value: all counters zero (derive Default). -/
def Summary.default : Summary :=
  { transmitted := 0, received := 0, time_ms := 0 }

/-- The profile snapshot the engine exposes through esp_ping_get_profile
during one handler invocation: per-event fields (SEQNO, TTL, IPADDR,
TIMEGAP, SIZE) and cumulative counters (REQUEST, REPLY, DURATION). -/
structure Profile where
  seqno : Nat
  ttl : Nat
  ipaddr : Nat
  timegap_ms : Nat
  size : Nat
  request : Nat
  reply : Nat
  duration_ms : Nat
deriving DecidableEq

/-- Per-run shared state (struct Tracker). The waitable field is the Bool
state of the Waitable cell (the running flag); reply_callback models the
optional observer closure, whose state-free content is Unit. -/
structure Tracker where
  summary : Summary
  waitable : Bool
  reply_callback : Option Unit
deriving DecidableEq

/-- Tracker constructor (Tracker::new): default Summary, waitable cell
holding false, the given optional callback. -/
def Tracker.new (reply_callback : Option Unit) : Tracker :=
  { summary := Summary.default, waitable := false, reply_callback := reply_callback }

/-- The built-in no-op observer (const fn nop_callback); side-effect-free
observers are modelled by their (trivial) state Unit. -/
def nop_callback : Unit := ()

/-- EspPing::update_summary: overwrite all three Summary fields from the
engine cumulative REQUEST / REPLY / DURATION profile values. -/
def update_summary (p : Profile) (s : Summary) : Summary :=
  { s with transmitted := p.request, received := p.reply, time_ms := p.duration_ms }

/-- The Info value the success handler constructs from the profile reads. -/
def infoOfProfile (p : Profile) : Info :=
  { addr := p.ipaddr, seqno := p.seqno, ttl := p.ttl,
    elapsed_time_ms := p.timegap_ms, recv_len := p.size }

/-- EspPing::on_ping_success: if an observer is present, update the Summary
from the engine counters and invoke the observer with the updated Summary
and Reply::Success(info). Returns the new Tracker and the list of observer
invocations this handler performed. -/
def on_ping_success (p : Profile) (t : Tracker) : Tracker × List (Summary × Reply) :=
  match t.reply_callback with
  | some _ =>
      let s := update_summary p t.summary
      ({ t with summary := s }, [(s, Reply.Success (infoOfProfile p))])
  | none => (t, [])

/-- EspPing::on_ping_timeout: if an observer is present, update the Summary
from the engine counters and invoke the observer with the updated Summary
and Reply::Timeout. -/
def on_ping_timeout (p : Profile) (t : Tracker) : Tracker × List (Summary × Reply) :=
  match t.reply_callback with
  | some _ =>
      let s := update_summary p t.summary
      ({ t with summary := s }, [(s, Reply.Timeout)])
  | none => (t, [])

/-- EspPing::on_ping_end: update the Summary one final time, then set the
waitable running flag to false (and notify the blocked caller). No
observer invocation. -/
def on_ping_end (p : Profile) (t : Tracker) : Tracker :=
  let s := update_summary p t.summary
  { t with summary := s, waitable := false }

/-- One engine-delivered event together with the profile snapshot readable
during its handler. -/
inductive EngineEvent
  | success (p : Profile)
  | timeout (p : Profile)
  | ended (p : Profile)
deriving DecidableEq

/-- Dispatch one engine event to the registered handler. -/
def stepEvent (t : Tracker) (e : EngineEvent) : Tracker × List (Summary × Reply) :=
  match e with
  | .success p => on_ping_success p t
  | .timeout p => on_ping_timeout p t
  | .ended p => (on_ping_end p t, [])

/-- Deliver a list of engine events in order, accumulating the observer
invocation trace. -/
def runEvents : Tracker → List EngineEvent → Tracker × List (Summary × Reply)
  | t, [] => (t, [])
  | t, e :: rest =>
      ((runEvents (stepEvent t e).1 rest).1,
       (stepEvent t e).2 ++ (runEvents (stepEvent t e).1 rest).2)

/-- The engine-native session configuration the bridge builds
(esp_ping_config_t literal in EspPing::run_ping): user fields copied from
the Configuration, fixed task stack size 4096, task priority 2, ttl 64. -/
structure EspPingConfig where
  count : Nat
  interval_ms : Nat
  timeout_ms : Nat
  data_size : Nat
  tos : Nat
  target_addr : Nat
  task_stack_size : Nat
  task_prio : Nat
  interface : Nat
  ttl : Nat
deriving DecidableEq

/-- Build the engine configuration from the user Configuration and target
address (the esp_ping_config_t construction in run_ping). -/
def esp_ping_config_of (interface target : Nat) (conf : Configuration) : EspPingConfig :=
  { count := conf.count, interval_ms := conf.interval_ms, timeout_ms := conf.timeout_ms,
    data_size := conf.data_size, tos := conf.tos, target_addr := target,
    task_stack_size := 4096, task_prio := 2, interface := interface, ttl := 64 }

/-- The esp_err_t code ESP_ERR_INVALID_ARG (0x102) the bridge returns when
session creation yields a null handle. -/
def ESP_ERR_INVALID_ARG : Nat := 258

/-- One behaviour of the external engine for a single run: the outcome of
each fallible engine call (some code means that call fails with that
esp_err_t code), whether a successful creation nevertheless yields a null
handle, and the finite list of events the engine delivers for the session.
The waitErr field is modelled from the spec: the Synchronized State Cell
(crate private waitable module, not present under src/) may report a
timeout or interrupt error from its wait_while, which run_ping propagates. -/
structure Engine where
  createErr : Option Nat
  handleNull : Bool
  startErr : Option Nat
  events : List EngineEvent
  waitErr : Option Nat
  stopErr : Option Nat
  deleteErr : Option Nat
deriving DecidableEq

/-- The engine entry points the bridge can call on a session. -/
inductive EngineCall
  | create
  | start
  | stop
  | destroy
deriving DecidableEq

/-- Outcome of one bridge run: a propagated engine or wait error, a wait
that never unblocks (the running flag was never cleared), or completion. -/
inductive Outcome
  | err (code : Nat)
  | blocked
  | done
deriving DecidableEq

/-- Result of EspPing::run_ping: the engine calls issued in order, the
engine configuration passed to session creation, the final Tracker state,
the observer invocation trace, and the outcome. -/
structure RunResult where
  calls : List EngineCall
  config : EspPingConfig
  tracker : Tracker
  trace : List (Summary × Reply)
  outcome : Outcome
deriving DecidableEq

/-- EspPing::run_ping: build the engine configuration, create the session
(fail on engine error or null handle), set the running flag, start the
session, deliver the engine events into the Tracker, block until the flag
is cleared (propagating a wait error), then stop and delete the session.
Each fallible step propagates its error immediately; the calls field
records exactly the engine entry points reached. -/
def run_ping (interface target : Nat) (conf : Configuration) (eng : Engine)
    (tracker : Tracker) : RunResult :=
  let config := esp_ping_config_of interface target conf
  match eng.createErr with
  | some e => ⟨[.create], config, tracker, [], .err e⟩
  | none =>
    if eng.handleNull then
      ⟨[.create], config, tracker, [], .err ESP_ERR_INVALID_ARG⟩
    else
      let t1 := { tracker with waitable := true }
      match eng.startErr with
      | some e => ⟨[.create, .start], config, t1, [], .err e⟩
      | none =>
        let t2 := (runEvents t1 eng.events).1
        let tr := (runEvents t1 eng.events).2
        match eng.waitErr with
        | some e => ⟨[.create, .start], config, t2, tr, .err e⟩
        | none =>
          if t2.waitable then
            ⟨[.create, .start], config, t2, tr, .blocked⟩
          else
            match eng.stopErr with
            | some e => ⟨[.create, .start, .stop], config, t2, tr, .err e⟩
            | none =>
              match eng.deleteErr with
              | some e => ⟨[.create, .start, .stop, .destroy], config, t2, tr, .err e⟩
              | none => ⟨[.create, .start, .stop, .destroy], config, t2, tr, .done⟩

/-- Result type of the public entry points (Result of Summary and
EspError in the source). -/
inductive PingResult
  | err (code : Nat)
  | ok (s : Summary)
deriving DecidableEq

/-- EspPing::ping (run_summary): run with a Tracker holding the built-in
no-op observer and return the final Summary. The outer Option models
termination of the blocking call: none means the wait never unblocks. -/
def ping (interface target : Nat) (conf : Configuration) (eng : Engine) :
    Option PingResult :=
  let r := run_ping interface target conf eng (Tracker.new (some nop_callback))
  match r.outcome with
  | .err e => some (.err e)
  | .blocked => none
  | .done => some (.ok r.tracker.summary)

/-- EspPing::ping_details (run_detailed): run with a Tracker holding the
user observer (any side-effect-free observer has state Unit) and return
the final Summary; the second component is the observer invocation trace,
recorded even when the run ends in an error. -/
def ping_details (interface target : Nat) (conf : Configuration) (eng : Engine) :
    Option PingResult × List (Summary × Reply) :=
  let r := run_ping interface target conf eng (Tracker.new (some ()))
  (match r.outcome with
   | .err e => some (.err e)
   | .blocked => none
   | .done => some (.ok r.tracker.summary),
   r.trace)

/-- The Summary value obtained by overwriting all fields from one profile
snapshot; since update_summary overwrites every field, this is the Summary
an observer sees right after that snapshot is folded in. -/
def summaryOfProfile (p : Profile) : Summary :=
  { transmitted := p.request, received := p.reply, time_ms := p.duration_ms }

/-- Specification of one observer invocation per engine event: reply
events produce exactly one call carrying the just-updated Summary and the
translated Reply; the end event produces none. -/
def observedCall : EngineEvent → Option (Summary × Reply)
  | .success p => some (summaryOfProfile p, Reply.Success (infoOfProfile p))
  | .timeout p => some (summaryOfProfile p, Reply.Timeout)
  | .ended _ => none

/-- The profile snapshots of the reply events (success or timeout) of an
event list, in delivery order. -/
def replyProfiles : List EngineEvent → List Profile
  | [] => []
  | .success p :: rest => p :: replyProfiles rest
  | .timeout p :: rest => p :: replyProfiles rest
  | .ended _ :: rest => replyProfiles rest

/-- The profile snapshot attached to an engine event. -/
def eventProfile : EngineEvent → Profile
  | .success p => p
  | .timeout p => p
  | .ended p => p

/-- Concrete engine behaviour for the count-3 scenario: two successes, one
timeout, then the end event with cumulative counters 3 / 2 / 3010 ms. -/
def engC1 : Engine :=
  ⟨none, false, none,
   [.success ⟨0, 64, 0, 10, 64, 1, 1, 10⟩, .success ⟨1, 64, 0, 12, 64, 2, 2, 1012⟩,
    .timeout ⟨2, 0, 0, 0, 0, 3, 2, 3010⟩, .ended ⟨0, 0, 0, 0, 0, 3, 2, 3010⟩],
   none, none, none⟩

/-- Concrete engine behaviour delivering Success(0), Timeout(1),
Success(2), then the end event. -/
def engC2 : Engine :=
  ⟨none, false, none,
   [.success ⟨0, 64, 0, 10, 64, 1, 1, 10⟩, .timeout ⟨1, 0, 0, 0, 0, 2, 1, 1010⟩,
    .success ⟨2, 64, 0, 9, 64, 3, 2, 2019⟩, .ended ⟨0, 0, 0, 0, 0, 3, 2, 3010⟩],
   none, none, none⟩

/-- Concrete engine behaviour delivering only the end event. -/
def engC3 : Engine :=
  ⟨none, false, none, [.ended ⟨0, 0, 0, 0, 0, 5, 0, 5000⟩], none, none, none⟩

/-- Concrete engine behaviour where creation and start succeed, no reply
arrives, and the wait step reports error code 263 (ESP_ERR_TIMEOUT). -/
def engC4 : Engine :=
  ⟨none, false, none, [], some 263, none, none⟩

/-- Concrete engine behaviour where session creation fails with code 263. -/
def engC5 : Engine :=
  ⟨some 263, false, none, [], none, none, none⟩

/-- Concrete engine behaviour matching engC1, used for the bounds run. -/
def engC7 : Engine :=
  ⟨none, false, none,
   [.success ⟨0, 64, 0, 10, 64, 1, 1, 10⟩, .success ⟨1, 64, 0, 12, 64, 2, 2, 1012⟩,
    .timeout ⟨2, 0, 0, 0, 0, 3, 2, 3010⟩, .ended ⟨0, 0, 0, 0, 0, 3, 2, 3010⟩],
   none, none, none⟩

/-- Concrete engine behaviour with one success and one timeout whose
cumulative counters grow across the events. -/
def engC8 : Engine :=
  ⟨none, false, none,
   [.success ⟨0, 64, 0, 10, 64, 1, 1, 10⟩, .timeout ⟨1, 0, 0, 0, 0, 2, 1, 1010⟩,
    .ended ⟨0, 0, 0, 0, 0, 2, 1, 2010⟩],
   none, none, none⟩

/-- Concrete engine behaviour where creation reports success but the
returned session handle is null. -/
def engC9 : Engine :=
  ⟨none, true, none, [], none, none, none⟩

theorem stepEvent_reply_callback (t : Tracker) (e : EngineEvent) :
    ((stepEvent t e).1).reply_callback = t.reply_callback := by
  cases e <;> simp [stepEvent, on_ping_success, on_ping_timeout, on_ping_end] <;>
    cases h : t.reply_callback <;> simp [h]

theorem runEvents_reply_callback (evs : List EngineEvent) (t : Tracker) :
    ((runEvents t evs).1).reply_callback = t.reply_callback := by
  induction evs generalizing t with
  | nil => rfl
  | cons e rest ih => simpa [runEvents, stepEvent_reply_callback] using ih (stepEvent t e).1

theorem runEvents_append (t : Tracker) (xs ys : List EngineEvent) :
    runEvents t (xs ++ ys) =
      ((runEvents (runEvents t xs).1 ys).1,
       (runEvents t xs).2 ++ (runEvents (runEvents t xs).1 ys).2) := by
  induction xs generalizing t with
  | nil => simp [runEvents]
  | cons e rest ih => simp [runEvents, ih]

theorem stepEvent_waitable_of_reply (t : Tracker) (e : EngineEvent)
    (h : ∀ p, e ≠ .ended p) : ((stepEvent t e).1).waitable = t.waitable := by
  cases e with
  | success p =>
      simp only [stepEvent, on_ping_success]
      cases t.reply_callback <;> simp
  | timeout p =>
      simp only [stepEvent, on_ping_timeout]
      cases t.reply_callback <;> simp
  | ended p => exact absurd rfl (h p)

theorem runEvents_ended_of_waitable (evs : List EngineEvent) (t : Tracker)
    (ht : t.waitable = true) (h : ((runEvents t evs).1).waitable = false) :
    ∃ p, EngineEvent.ended p ∈ evs := by
  induction evs generalizing t with
  | nil => simp [runEvents, ht] at h
  | cons e rest ih =>
      cases e with
      | ended p => exact ⟨p, List.mem_cons_self _ _⟩
      | success p =>
          obtain ⟨q, hq⟩ := ih (stepEvent t (.success p)).1
            (by rw [stepEvent_waitable_of_reply t _ (by intro q h; cases h)]; exact ht)
            (by simpa [runEvents] using h)
          exact ⟨q, List.mem_cons_of_mem _ hq⟩
      | timeout p =>
          obtain ⟨q, hq⟩ := ih (stepEvent t (.timeout p)).1
            (by rw [stepEvent_waitable_of_reply t _ (by intro q h; cases h)]; exact ht)
            (by simpa [runEvents] using h)
          exact ⟨q, List.mem_cons_of_mem _ hq⟩

theorem runEvents_cons_snd (t : Tracker) (e : EngineEvent) (rest : List EngineEvent) :
    (runEvents t (e :: rest)).2 = (stepEvent t e).2 ++ (runEvents (stepEvent t e).1 rest).2 :=
  rfl

theorem runEvents_cons_fst (t : Tracker) (e : EngineEvent) (rest : List EngineEvent) :
    (runEvents t (e :: rest)).1 = (runEvents (stepEvent t e).1 rest).1 :=
  rfl

theorem runEvents_trace (evs : List EngineEvent) (t : Tracker)
    (h : t.reply_callback.isSome) :
    (runEvents t evs).2 = evs.filterMap observedCall := by
  induction evs generalizing t with
  | nil => rfl
  | cons e rest ih =>
      have hrest := ih (stepEvent t e).1 (by rw [stepEvent_reply_callback]; exact h)
      obtain ⟨u, hu⟩ := Option.isSome_iff_exists.mp h
      rw [runEvents_cons_snd, hrest]
      cases e with
      | success p =>
          simp [stepEvent, on_ping_success, hu, observedCall, update_summary, summaryOfProfile]
      | timeout p =>
          simp [stepEvent, on_ping_timeout, hu, observedCall, update_summary, summaryOfProfile]
      | ended p =>
          simp [stepEvent, observedCall]

theorem run_ping_done_elim (interface target : Nat) (conf : Configuration)
    (eng : Engine) (t0 : Tracker)
    (h : (run_ping interface target conf eng t0).outcome = .done) :
    eng.createErr = none ∧ eng.handleNull = false ∧ eng.startErr = none ∧
    eng.waitErr = none ∧ eng.stopErr = none ∧ eng.deleteErr = none ∧
    ((runEvents { t0 with waitable := true } eng.events).1).waitable = false ∧
    (run_ping interface target conf eng t0).tracker =
      (runEvents { t0 with waitable := true } eng.events).1 := by
  cases hc : eng.createErr with
  | some e => simp [run_ping, hc] at h
  | none =>
  cases hn : eng.handleNull with
  | true => simp [run_ping, hc, hn] at h
  | false =>
  cases hs : eng.startErr with
  | some e => simp [run_ping, hc, hn, hs] at h
  | none =>
  cases hw : eng.waitErr with
  | some e => simp [run_ping, hc, hn, hs, hw] at h
  | none =>
  cases hwait : ((runEvents { t0 with waitable := true } eng.events).1).waitable with
  | true => simp [run_ping, hc, hn, hs, hw, hwait] at h
  | false =>
  cases hst : eng.stopErr with
  | some e => simp [run_ping, hc, hn, hs, hw, hwait, hst] at h
  | none =>
  cases hd : eng.deleteErr with
  | some e => simp [run_ping, hc, hn, hs, hw, hwait, hst, hd] at h
  | none =>
  refine ⟨rfl, rfl, rfl, rfl, rfl, rfl, rfl, ?_⟩
  simp [run_ping, hc, hn, hs, hw, hwait, hst, hd]

theorem run_ping_trace_eq (interface target : Nat) (conf : Configuration)
    (eng : Engine) (t0 : Tracker) (hc : eng.createErr = none)
    (hn : eng.handleNull = false) (hs : eng.startErr = none) :
    (run_ping interface target conf eng t0).trace =
      (runEvents { t0 with waitable := true } eng.events).2 := by
  cases hw : eng.waitErr <;> cases hst : eng.stopErr <;> cases hd : eng.deleteErr <;>
    cases hwait : ((runEvents { t0 with waitable := true } eng.events).1).waitable <;>
      simp [run_ping, hc, hn, hs, hw, hst, hd, hwait]

theorem ping_details_snd (interface target : Nat) (conf : Configuration) (eng : Engine) :
    (ping_details interface target conf eng).2 =
      (run_ping interface target conf eng (Tracker.new (some ()))).trace :=
  rfl

theorem ping_ok_elim (interface target : Nat) (conf : Configuration) (eng : Engine)
    (s : Summary) (h : ping interface target conf eng = some (.ok s)) :
    (run_ping interface target conf eng (Tracker.new (some nop_callback))).outcome = .done ∧
    s = (run_ping interface target conf eng (Tracker.new (some nop_callback))).tracker.summary := by
  simp only [ping] at h
  cases ho : (run_ping interface target conf eng (Tracker.new (some nop_callback))).outcome with
  | err e => rw [ho] at h; simp at h
  | blocked => rw [ho] at h; simp at h
  | done => rw [ho] at h; simp at h; exact ⟨rfl, h.symm⟩

theorem runEvents_summary_bounds (count : Nat) (evs : List EngineEvent) (t : Tracker)
    (h0 : t.summary.received ≤ t.summary.transmitted ∧ t.summary.transmitted ≤ count)
    (hc : ∀ e ∈ evs, (eventProfile e).reply ≤ (eventProfile e).request ∧
      (eventProfile e).request ≤ count) :
    ((runEvents t evs).1).summary.received ≤ ((runEvents t evs).1).summary.transmitted ∧
      ((runEvents t evs).1).summary.transmitted ≤ count := by
  induction evs generalizing t with
  | nil => exact h0
  | cons e rest ih =>
      rw [runEvents_cons_fst]
      refine ih (stepEvent t e).1 ?_ fun x hx => hc x (List.mem_cons_of_mem _ hx)
      have he := hc e (List.mem_cons_self _ _)
      cases e with
      | success p =>
          simp only [stepEvent, on_ping_success]
          cases hcb : t.reply_callback with
          | none => exact h0
          | some u => simpa [update_summary, eventProfile] using he
      | timeout p =>
          simp only [stepEvent, on_ping_timeout]
          cases hcb : t.reply_callback with
          | none => exact h0
          | some u => simpa [update_summary, eventProfile] using he
      | ended p =>
          simp only [stepEvent, on_ping_end]
          simpa [update_summary, eventProfile] using he

theorem filterMap_observedCall_length (evs : List EngineEvent) :
    (evs.filterMap observedCall).length = (replyProfiles evs).length := by
  induction evs with
  | nil => rfl
  | cons e rest ih => cases e <;> simp [observedCall, replyProfiles, ih]

theorem filterMap_observedCall_get (evs : List EngineEvent) (i : Nat)
    (hi : i < (evs.filterMap observedCall).length)
    (hi2 : i < (replyProfiles evs).length) :
    ((evs.filterMap observedCall).get ⟨i, hi⟩).1 =
      summaryOfProfile ((replyProfiles evs).get ⟨i, hi2⟩) := by
  induction evs generalizing i with
  | nil => exact absurd hi (by simp)
  | cons e rest ih =>
      cases e with
      | success p =>
          cases i with
          | zero => rfl
          | succ n =>
              simpa [observedCall, replyProfiles] using
                ih n (by simpa [observedCall] using hi) (by simpa [replyProfiles] using hi2)
      | timeout p =>
          cases i with
          | zero => rfl
          | succ n =>
              simpa [observedCall, replyProfiles] using
                ih n (by simpa [observedCall] using hi) (by simpa [replyProfiles] using hi2)
      | ended p =>
          simpa [observedCall, replyProfiles] using
            ih i (by simpa [observedCall] using hi) (by simpa [replyProfiles] using hi2)

theorem ping_details_trace_eq (interface target : Nat) (conf : Configuration)
    (eng : Engine) (hc : eng.createErr = none) (hn : eng.handleNull = false)
    (hs : eng.startErr = none) :
    (ping_details interface target conf eng).2 = eng.events.filterMap observedCall := by
  rw [ping_details_snd, run_ping_trace_eq _ _ _ _ _ hc hn hs,
    runEvents_trace _ _ (by rfl)]

/-- C1: a successful run whose last delivered event is the end event
returns a Summary whose three fields are exactly the cumulative
REQUEST / REPLY / DURATION profile values read by the end-event handler. -/
theorem spec_c1 (interface target : Nat) (conf : Configuration) (eng : Engine)
    (pre : List EngineEvent) (p : Profile) (s : Summary)
    (hev : eng.events = pre ++ [.ended p])
    (hok : ping interface target conf eng = some (.ok s)) :
    s = ⟨p.request, p.reply, p.duration_ms⟩ := by
  obtain ⟨hdone, hs⟩ := ping_ok_elim _ _ _ _ _ hok
  obtain ⟨-, -, -, -, -, -, -, htr⟩ := run_ping_done_elim _ _ _ _ _ hdone
  rw [hs, htr, hev, runEvents_append]
  simp [runEvents, stepEvent, on_ping_end, update_summary]

/-- C1 witness: with count 3, two successes, one timeout and an end event
reading 3 / 2 / 3010 ms, run_summary returns Summary 3 / 2 / 3010 ms. -/
theorem spec_c1_witness :
    ping 0 0 Configuration.default engC1 = some (.ok ⟨3, 2, 3010⟩) ∧
    (⟨3, 2, 3010⟩ : Summary) = ⟨3, 2, 3010⟩ :=
  ⟨by decide,
   spec_c1 0 0 Configuration.default engC1
     [.success ⟨0, 64, 0, 10, 64, 1, 1, 10⟩, .success ⟨1, 64, 0, 12, 64, 2, 2, 1012⟩,
      .timeout ⟨2, 0, 0, 0, 0, 3, 2, 3010⟩]
     ⟨0, 0, 0, 0, 0, 3, 2, 3010⟩ ⟨3, 2, 3010⟩ (by decide) (by decide)⟩

/-- C2: in a run of run_detailed, the observer is invoked exactly once per
reply event and never for the end event, in engine event order, and each
invocation receives the Summary with that event's counters already folded
in (the trace equals the per-event specification observedCall). -/
theorem spec_c2 (interface target : Nat) (conf : Configuration) (eng : Engine)
    (hc : eng.createErr = none) (hn : eng.handleNull = false)
    (hs : eng.startErr = none) :
    (ping_details interface target conf eng).2 = eng.events.filterMap observedCall :=
  ping_details_trace_eq interface target conf eng hc hn hs

/-- C2 witness: for events Success(0), Timeout(1), Success(2), End, the
observer sees exactly three calls with variants Success, Timeout, Success. -/
theorem spec_c2_witness :
    (ping_details 0 0 Configuration.default engC2).2 =
      engC2.events.filterMap observedCall ∧
    ((ping_details 0 0 Configuration.default engC2).2).map Prod.snd =
      [Reply.Success (infoOfProfile ⟨0, 64, 0, 10, 64, 1, 1, 10⟩), Reply.Timeout,
       Reply.Success (infoOfProfile ⟨2, 64, 0, 9, 64, 3, 2, 2019⟩)] :=
  ⟨spec_c2 0 0 Configuration.default engC2 rfl rfl rfl, by decide⟩

/-- C3: a successful blocking run implies the engine delivered an end
event, the running flag ends false, and the returned Summary is the
Tracker summary after all event-handler writes (so every write made
before the flag flip is visible in the returned value). -/
theorem spec_c3 (interface target : Nat) (conf : Configuration) (eng : Engine)
    (s : Summary) (hok : ping interface target conf eng = some (.ok s)) :
    (∃ p, EngineEvent.ended p ∈ eng.events) ∧
    ((runEvents { Tracker.new (some nop_callback) with
        waitable := true } eng.events).1).waitable = false ∧
    s = ((runEvents { Tracker.new (some nop_callback) with
        waitable := true } eng.events).1).summary := by
  obtain ⟨hdone, hs⟩ := ping_ok_elim _ _ _ _ _ hok
  obtain ⟨-, -, -, -, -, -, hwait, htr⟩ := run_ping_done_elim _ _ _ _ _ hdone
  exact ⟨runEvents_ended_of_waitable _ _ rfl hwait, hwait, by rw [hs, htr]⟩

/-- C3 witness: a run whose only event is the end event completes and
returns the summary written before the flag flip. -/
theorem spec_c3_witness :
    (∃ p, EngineEvent.ended p ∈ engC3.events) ∧
    ((runEvents { Tracker.new (some nop_callback) with
        waitable := true } engC3.events).1).waitable = false ∧
    (⟨5, 0, 5000⟩ : Summary) = ((runEvents { Tracker.new (some nop_callback) with
        waitable := true } engC3.events).1).summary :=
  spec_c3 0 0 Configuration.default engC3 ⟨5, 0, 5000⟩ (by decide)

/-- C4 counterexample: with creation and start succeeding, no reply, and
the wait step reporting error 263, the bridge returns the error but never
issues stop or destroy — refuting the claim that the session is torn down
on this error path. -/
theorem spec_c4_counterexample :
    (run_ping 0 0 Configuration.default engC4 (Tracker.new (some nop_callback))).outcome
        = .err 263 ∧
    EngineCall.stop ∉
      (run_ping 0 0 Configuration.default engC4 (Tracker.new (some nop_callback))).calls ∧
    EngineCall.destroy ∉
      (run_ping 0 0 Configuration.default engC4 (Tracker.new (some nop_callback))).calls := by
  decide

/-- C4 (amended): when the session fails after a successful start but
before completion (the wait step reports an error), the bridge propagates
that error immediately; the engine calls issued are exactly create and
start, so neither stop nor destroy reaches the engine on this error path. -/
theorem spec_c4 (interface target : Nat) (conf : Configuration) (eng : Engine)
    (e : Nat) (hc : eng.createErr = none) (hn : eng.handleNull = false)
    (hs : eng.startErr = none) (hw : eng.waitErr = some e) :
    (run_ping interface target conf eng (Tracker.new (some nop_callback))).outcome
        = .err e ∧
    (run_ping interface target conf eng (Tracker.new (some nop_callback))).calls
        = [.create, .start] ∧
    EngineCall.stop ∉
      (run_ping interface target conf eng (Tracker.new (some nop_callback))).calls ∧
    EngineCall.destroy ∉
      (run_ping interface target conf eng (Tracker.new (some nop_callback))).calls := by
  refine ⟨?_, ?_, ?_, ?_⟩ <;> simp [run_ping, hc, hn, hs, hw]

/-- C4 witness: the amended behaviour at the concrete wait-failure run. -/
theorem spec_c4_witness :
    (run_ping 0 0 Configuration.default engC4 (Tracker.new (some nop_callback))).calls
        = [.create, .start] :=
  (spec_c4 0 0 Configuration.default engC4 263 rfl rfl rfl rfl).2.1

/-- C5: if engine session creation fails, the bridge issues no start, stop
or destroy call, returns the creation error, and leaves the Tracker with
the running flag false and the default Summary. -/
theorem spec_c5 (interface target : Nat) (conf : Configuration) (eng : Engine)
    (e : Nat) (hc : eng.createErr = some e) :
    ping interface target conf eng = some (.err e) ∧
    (run_ping interface target conf eng (Tracker.new (some nop_callback))).calls
        = [.create] ∧
    (run_ping interface target conf eng (Tracker.new (some nop_callback))).tracker.waitable
        = false ∧
    (run_ping interface target conf eng (Tracker.new (some nop_callback))).tracker.summary
        = Summary.default := by
  refine ⟨?_, ?_, ?_, ?_⟩ <;> simp [ping, run_ping, hc, Tracker.new]

/-- C5 witness: the creation-failure behaviour at a concrete engine. -/
theorem spec_c5_witness :
    ping 0 0 Configuration.default engC5 = some (.err 263) ∧
    (run_ping 0 0 Configuration.default engC5 (Tracker.new (some nop_callback))).calls
        = [.create] ∧
    (run_ping 0 0 Configuration.default engC5 (Tracker.new (some nop_callback))).tracker.waitable
        = false ∧
    (run_ping 0 0 Configuration.default engC5 (Tracker.new (some nop_callback))).tracker.summary
        = Summary.default :=
  spec_c5 0 0 Configuration.default engC5 263 rfl

/-- C6: after any success or timeout event of a run (every run constructs
its Tracker with a present callback, built-in no-op or user observer),
the Tracker Summary equals the overwrite of all three fields from the
engine cumulative counters read during that event. -/
theorem spec_c6 (t : Tracker) (pre : List EngineEvent) (p : Profile)
    (h : t.reply_callback.isSome) :
    ((runEvents t (pre ++ [.success p])).1).summary = summaryOfProfile p ∧
    ((runEvents t (pre ++ [.timeout p])).1).summary = summaryOfProfile p := by
  have hcb : ((runEvents t pre).1).reply_callback.isSome := by
    rw [runEvents_reply_callback]; exact h
  obtain ⟨u, hu⟩ := Option.isSome_iff_exists.mp hcb
  constructor
  · rw [runEvents_append]
    simp [runEvents, stepEvent, on_ping_success, hu, update_summary, summaryOfProfile]
  · rw [runEvents_append]
    simp [runEvents, stepEvent, on_ping_timeout, hu, update_summary, summaryOfProfile]

/-- C6 witness: the overwrite at a concrete reply event from the initial
Tracker of both entry points. -/
theorem spec_c6_witness :
    ((runEvents (Tracker.new (some nop_callback))
        ([] ++ [.success ⟨0, 64, 0, 10, 64, 1, 1, 10⟩])).1).summary
      = summaryOfProfile ⟨0, 64, 0, 10, 64, 1, 1, 10⟩ ∧
    ((runEvents (Tracker.new (some nop_callback))
        ([] ++ [.timeout ⟨0, 64, 0, 10, 64, 1, 1, 10⟩])).1).summary
      = summaryOfProfile ⟨0, 64, 0, 10, 64, 1, 1, 10⟩ :=
  spec_c6 (Tracker.new (some nop_callback)) [] ⟨0, 64, 0, 10, 64, 1, 1, 10⟩ (by decide)

/-- C7: under the engine contract that every profile read satisfies
reply ≤ request ≤ count, a successful run_summary returns a Summary with
received ≤ transmitted ≤ count. -/
theorem spec_c7 (interface target : Nat) (conf : Configuration) (eng : Engine)
    (s : Summary)
    (hcontract : ∀ e ∈ eng.events, (eventProfile e).reply ≤ (eventProfile e).request ∧
      (eventProfile e).request ≤ conf.count)
    (hok : ping interface target conf eng = some (.ok s)) :
    s.received ≤ s.transmitted ∧ s.transmitted ≤ conf.count := by
  obtain ⟨hdone, hs⟩ := ping_ok_elim _ _ _ _ _ hok
  obtain ⟨-, -, -, -, -, -, -, htr⟩ := run_ping_done_elim _ _ _ _ _ hdone
  rw [hs, htr]
  exact runEvents_summary_bounds conf.count eng.events _
    ⟨by simp [Tracker.new, Summary.default], by simp [Tracker.new, Summary.default]⟩
    hcontract

/-- C7 witness: the bounds at the concrete count-3 run under the default
count-5 configuration. -/
theorem spec_c7_witness :
    (⟨3, 2, 3010⟩ : Summary).received ≤ (⟨3, 2, 3010⟩ : Summary).transmitted ∧
    (⟨3, 2, 3010⟩ : Summary).transmitted ≤ Configuration.default.count :=
  spec_c7 0 0 Configuration.default engC7 ⟨3, 2, 3010⟩ (by decide) (by decide)

/-- C8: within one run of run_detailed, under the engine contract that the
Nth reply event reads a REQUEST counter of at least N and that the
cumulative counters are non-decreasing across reply events, the Summary
passed to the observer on the Nth invocation has transmitted ≥ N, and
transmitted and received are non-decreasing across successive invocations. -/
theorem spec_c8 (interface target : Nat) (conf : Configuration) (eng : Engine)
    (hc : eng.createErr = none) (hn : eng.handleNull = false)
    (hs : eng.startErr = none)
    (hidx : ∀ i (hi : i < (replyProfiles eng.events).length),
      i + 1 ≤ ((replyProfiles eng.events).get ⟨i, hi⟩).request)
    (hmono : ∀ i (hi : i < (replyProfiles eng.events).length)
      (j : Nat) (hj : j < (replyProfiles eng.events).length), i ≤ j →
      ((replyProfiles eng.events).get ⟨i, hi⟩).request ≤
        ((replyProfiles eng.events).get ⟨j, hj⟩).request ∧
      ((replyProfiles eng.events).get ⟨i, hi⟩).reply ≤
        ((replyProfiles eng.events).get ⟨j, hj⟩).reply) :
    ∀ i (hi : i < ((ping_details interface target conf eng).2).length)
      (j : Nat) (hj : j < ((ping_details interface target conf eng).2).length),
      i + 1 ≤ (((ping_details interface target conf eng).2).get ⟨i, hi⟩).1.transmitted ∧
      (i ≤ j →
        (((ping_details interface target conf eng).2).get ⟨i, hi⟩).1.transmitted ≤
          (((ping_details interface target conf eng).2).get ⟨j, hj⟩).1.transmitted ∧
        (((ping_details interface target conf eng).2).get ⟨i, hi⟩).1.received ≤
          (((ping_details interface target conf eng).2).get ⟨j, hj⟩).1.received) := by
  have htrace := ping_details_trace_eq interface target conf eng hc hn hs
  rw [htrace]
  intro i hi j hj
  have hlen := filterMap_observedCall_length eng.events
  have hi2 : i < (replyProfiles eng.events).length := hlen ▸ hi
  have hj2 : j < (replyProfiles eng.events).length := hlen ▸ hj
  rw [filterMap_observedCall_get eng.events i hi hi2,
    filterMap_observedCall_get eng.events j hj hj2]
  refine ⟨?_, fun hij => ?_⟩
  · simpa [summaryOfProfile] using hidx i hi2
  · obtain ⟨h1, h2⟩ := hmono i hi2 j hj2 hij
    exact ⟨by simpa [summaryOfProfile] using h1,
      by simpa [summaryOfProfile] using h2⟩

/-- C8 witness: at a concrete two-reply run, the first observer invocation
sees transmitted ≥ 1 and the counters do not decrease to the second. -/
theorem spec_c8_witness :
    1 ≤ (((ping_details 0 0 Configuration.default engC8).2).get
        ⟨0, by decide⟩).1.transmitted :=
  (spec_c8 0 0 Configuration.default engC8 rfl rfl rfl (by decide) (by decide)
    0 (by decide) 1 (by decide)).1

/-- C9: if session creation reports success but yields a null handle, the
bridge returns the ESP_ERR_INVALID_ARG (invalid handle) error and issues
no start, stop or destroy call; the run ends there with no retry. -/
theorem spec_c9 (interface target : Nat) (conf : Configuration) (eng : Engine)
    (hc : eng.createErr = none) (hn : eng.handleNull = true) :
    ping interface target conf eng = some (.err ESP_ERR_INVALID_ARG) ∧
    (run_ping interface target conf eng (Tracker.new (some nop_callback))).calls
        = [.create] := by
  constructor <;> simp [ping, run_ping, hc, hn]

/-- C9 witness: the null-handle behaviour at a concrete engine. -/
theorem spec_c9_witness :
    ping 0 0 Configuration.default engC9 = some (.err ESP_ERR_INVALID_ARG) ∧
    (run_ping 0 0 Configuration.default engC9 (Tracker.new (some nop_callback))).calls
        = [.create] :=
  spec_c9 0 0 Configuration.default engC9 rfl rfl

/-- C10: run_summary is run_detailed with the built-in no-op observer:
for every target, configuration and engine behaviour, ping returns exactly
the result ping_details returns (any side-effect-free observer has the
same trivial state as the no-op one), and both entry points construct the
Tracker with reply_callback present. -/
theorem spec_c10 (interface target : Nat) (conf : Configuration) (eng : Engine) :
    ping interface target conf eng = (ping_details interface target conf eng).1 ∧
    (Tracker.new (some nop_callback)).reply_callback = some nop_callback ∧
    (Tracker.new (some ())).reply_callback = some () :=
  ⟨rfl, rfl, rfl⟩

end PingBridge
